import Mathlib

/-!
Shallow embedding of the CampusRide bus-booking backend: the in-memory
entity store (`src/server/storage.ts`, class `MemStorage`), the request
handlers (`src/server/routes.ts`) and the validation schema
(`src/shared/schema.ts`).

Modelling conventions:
* `randomUUID()` is modelled by a `nextId : Nat` counter threaded through
  the store; each creation consumes the counter, so generated identifiers
  are fresh and unique, exactly the property UUIDs are used for.
* JavaScript `Map` collections (keyed by id, resp. by settings key) are
  modelled as insertion-ordered lists; `Map.set` with a fresh key appends,
  `Map.set` with an existing key replaces in place, and
  `Array.from(map.values()).find(...)` is `List.find?`.
* JS numbers holding seat counts are modelled as `Int` (they can in
  principle go negative, which is what the invariant claims rule out).
* JS falsiness in `x || d` (empty string counts as absent) and the
  nullish `x ?? d` are modelled explicitly.
* The clock (`new Date()` for `bookingTime`) is a `now : Nat` field.
-/

/-- students table (shared/schema.ts): id, collegeId, optional name/email/phone. -/
structure Student where
  id : Nat
  collegeId : String
  name : Option String
  email : Option String
  phone : Option String
deriving DecidableEq

/-- bus_routes table plus the `availableDates` list the storage layer attaches. -/
structure BusRoute where
  id : Nat
  busNumber : String
  origin : String
  destination : String
  totalSeats : Int
  availableSeats : Int
  departureTime : String
  returnTime : String
  isActive : Bool
  availableDates : List String
deriving DecidableEq

/-- bookings table: studentId and busRouteId are weak references by identifier. -/
structure Booking where
  id : Nat
  studentId : Nat
  busRouteId : Nat
  travelDate : String
  bookingTime : Nat
  status : String
deriving DecidableEq

/-- system_settings table: key/value pairs with a generated id. -/
structure SystemSetting where
  id : Nat
  key : String
  value : String
deriving DecidableEq

/-- insertStudentSchema: students minus the generated id; name/email/phone optional. -/
structure InsertStudent where
  collegeId : String
  name : Option String := none
  email : Option String := none
  phone : Option String := none
deriving DecidableEq

/-- insertBusRouteSchema: bus_routes minus the generated id; `isActive` has a
column default so it is optional, and the storage layer accepts an optional
`availableDates`. -/
structure InsertBusRoute where
  busNumber : String
  origin : String
  destination : String
  totalSeats : Int
  availableSeats : Int
  departureTime : String
  returnTime : String
  isActive : Option Bool := none
  availableDates : Option (List String) := none
deriving DecidableEq

/-- insertBookingSchema: bookings minus id and bookingTime; `status` has a
column default so it is optional in the request body. -/
structure InsertBooking where
  studentId : Nat
  busRouteId : Nat
  travelDate : String
  status : Option String := none
deriving DecidableEq

/-- MemStorage state: the four collections plus the id counter and clock. -/
structure MemStorage where
  students : List Student
  busRoutes : List BusRoute
  bookings : List Booking
  systemSettings : List SystemSetting
  nextId : Nat
  now : Nat
deriving DecidableEq

/-- JS `s || null` on an optional string: undefined and the empty string are
both falsy and collapse to null. -/
def jsStrOrNull (o : Option String) : Option String :=
  match o with
  | some s => if s = "" then none else some s
  | none => none

/-- JS `s || "confirmed"` for the booking status (empty string is falsy). -/
def statusOrConfirmed (o : Option String) : String :=
  match o with
  | some s => if s = "" then "confirmed" else s
  | none => "confirmed"

/-- storage.ts getStudent: `this.students.get(id)`. -/
def MemStorage.getStudent (st : MemStorage) (id : Nat) : Option Student :=
  st.students.find? fun s => s.id == id

/-- storage.ts getStudentByCollegeId: linear scan over students. -/
def MemStorage.getStudentByCollegeId (st : MemStorage) (collegeId : String) : Option Student :=
  st.students.find? fun s => s.collegeId == collegeId

/-- storage.ts createStudent: fresh id, falsy optional fields become null. -/
def MemStorage.createStudent (st : MemStorage) (ins : InsertStudent) : Student × MemStorage :=
  let student : Student :=
    { id := st.nextId
      collegeId := ins.collegeId
      name := jsStrOrNull ins.name
      email := jsStrOrNull ins.email
      phone := jsStrOrNull ins.phone }
  (student, { st with students := st.students ++ [student], nextId := st.nextId + 1 })

/-- storage.ts getAllBusRoutes. -/
def MemStorage.getAllBusRoutes (st : MemStorage) : List BusRoute :=
  st.busRoutes

/-- storage.ts getActiveBusRoutes. -/
def MemStorage.getActiveBusRoutes (st : MemStorage) : List BusRoute :=
  st.busRoutes.filter fun r => r.isActive

/-- storage.ts getBusRoute: `this.busRoutes.get(id)`. -/
def MemStorage.getBusRoute (st : MemStorage) (id : Nat) : Option BusRoute :=
  st.busRoutes.find? fun r => r.id == id

/-- storage.ts getBusRouteByNumber: linear scan by bus number. -/
def MemStorage.getBusRouteByNumber (st : MemStorage) (busNumber : String) : Option BusRoute :=
  st.busRoutes.find? fun r => r.busNumber == busNumber

/-- storage.ts createBusRoute: fresh id, `isActive ?? true`, `availableDates || []`. -/
def MemStorage.createBusRoute (st : MemStorage) (ins : InsertBusRoute) : BusRoute × MemStorage :=
  let route : BusRoute :=
    { id := st.nextId
      busNumber := ins.busNumber
      origin := ins.origin
      destination := ins.destination
      totalSeats := ins.totalSeats
      availableSeats := ins.availableSeats
      departureTime := ins.departureTime
      returnTime := ins.returnTime
      isActive := ins.isActive.getD true
      availableDates := ins.availableDates.getD [] }
  (route, { st with busRoutes := st.busRoutes ++ [route], nextId := st.nextId + 1 })

/-- storage.ts updateBusRoute: merge a partial record into the existing route
(the merge `{...existing, ...busRoute}` is modelled by a patch function) and
store it back under the same key. -/
def MemStorage.updateBusRoute (st : MemStorage) (id : Nat) (patch : BusRoute → BusRoute) :
    Option BusRoute × MemStorage :=
  match st.busRoutes.find? (fun r => r.id == id) with
  | none => (none, st)
  | some existing =>
    let updated := patch existing
    (some updated,
     { st with busRoutes := st.busRoutes.map fun r => if r.id == id then updated else r })

/-- storage.ts deleteBusRoute: `this.busRoutes.delete(id)` returns whether the
key existed. -/
def MemStorage.deleteBusRoute (st : MemStorage) (id : Nat) : Bool × MemStorage :=
  (st.busRoutes.any (fun r => r.id == id),
   { st with busRoutes := st.busRoutes.filter fun r => r.id != id })

/-- storage.ts getAllBookings. -/
def MemStorage.getAllBookings (st : MemStorage) : List Booking :=
  st.bookings

/-- storage.ts getBookingsByStudentId. -/
def MemStorage.getBookingsByStudentId (st : MemStorage) (studentId : Nat) : List Booking :=
  st.bookings.filter fun b => b.studentId == studentId

/-- storage.ts getBookingsByDate. -/
def MemStorage.getBookingsByDate (st : MemStorage) (date : String) : List Booking :=
  st.bookings.filter fun b => b.travelDate == date

/-- storage.ts createBooking: unconditionally insert the booking (fresh id,
current time, `status || "confirmed"`), then decrement the route's
availableSeats only when the route exists and has a positive count. -/
def MemStorage.createBooking (st : MemStorage) (ins : InsertBooking) : Booking × MemStorage :=
  let booking : Booking :=
    { id := st.nextId
      studentId := ins.studentId
      busRouteId := ins.busRouteId
      travelDate := ins.travelDate
      bookingTime := st.now
      status := statusOrConfirmed ins.status }
  let st1 : MemStorage :=
    { st with bookings := st.bookings ++ [booking], nextId := st.nextId + 1 }
  match st1.getBusRoute booking.busRouteId with
  | some busRoute =>
    if busRoute.availableSeats > 0 then
      (booking,
       (st1.updateBusRoute busRoute.id
         (fun r => { r with availableSeats := busRoute.availableSeats - 1 })).2)
    else (booking, st1)
  | none => (booking, st1)

/-- storage.ts updateBooking: merge a partial record into an existing booking. -/
def MemStorage.updateBooking (st : MemStorage) (id : Nat) (patch : Booking → Booking) :
    Option Booking × MemStorage :=
  match st.bookings.find? (fun b => b.id == id) with
  | none => (none, st)
  | some existing =>
    let updated := patch existing
    (some updated,
     { st with bookings := st.bookings.map fun b => if b.id == id then updated else b })

/-- storage.ts getSystemSetting: `this.systemSettings.get(key)`. -/
def MemStorage.getSystemSetting (st : MemStorage) (key : String) : Option SystemSetting :=
  st.systemSettings.find? fun s => s.key == key

/-- storage.ts setSystemSetting: build a setting with a fresh id and
`Map.set` it under its key (replace in place when the key exists, append
otherwise). -/
def MemStorage.setSystemSetting (st : MemStorage) (key value : String) :
    SystemSetting × MemStorage :=
  let setting : SystemSetting := { id := st.nextId, key := key, value := value }
  let settings :=
    if st.systemSettings.any (fun s => s.key == key) then
      st.systemSettings.map fun s => if s.key == key then setting else s
    else
      st.systemSettings ++ [setting]
  (setting, { st with systemSettings := settings, nextId := st.nextId + 1 })

/-- Composite view returned by storage.ts getBookingWithDetails: the booking
enriched with its (possibly absent) student and route. -/
structure BookingWithDetails where
  booking : Booking
  student : Option Student
  busRoute : Option BusRoute
deriving DecidableEq

/-- storage.ts getBookingWithDetails: null for a missing booking, otherwise
the booking with its student and route resolved by id (either may be absent). -/
def MemStorage.getBookingWithDetails (st : MemStorage) (bookingId : Nat) :
    Option BookingWithDetails :=
  match st.bookings.find? (fun b => b.id == bookingId) with
  | none => none
  | some b =>
    some { booking := b, student := st.getStudent b.studentId, busRoute := st.getBusRoute b.busRouteId }

/-- Composite view used by storage.ts getStudentBookingHistory: a booking
enriched with its (possibly absent) route. -/
structure BookingWithRoute where
  booking : Booking
  busRoute : Option BusRoute
deriving DecidableEq

/-- storage.ts getStudentBookingHistory: empty for an unknown college id,
otherwise the student's bookings enriched with their routes, sorted by
booking time, most recent first. -/
def MemStorage.getStudentBookingHistory (st : MemStorage) (collegeId : String) :
    List BookingWithRoute :=
  match st.getStudentByCollegeId collegeId with
  | none => []
  | some student =>
    ((st.getBookingsByStudentId student.id).map fun b =>
        { booking := b, busRoute := st.getBusRoute b.busRouteId : BookingWithRoute }
      ).mergeSort fun a b => b.booking.bookingTime ≤ a.booking.bookingTime

/-- collegeIdSchema regex `^SJCET\d{7}$` (shared/schema.ts), at the character
level: the literal prefix SJCET followed by exactly seven digit characters. -/
def collegeIdValidChars (cs : List Char) : Bool :=
  match cs with
  | 'S' :: 'J' :: 'C' :: 'E' :: 'T' :: rest => rest.length == 7 && rest.all Char.isDigit
  | _ => false

/-- collegeIdSchema applied to a string. -/
def collegeIdValid (s : String) : Bool :=
  collegeIdValidChars s.data

/-- Outcome of POST /api/student/auth (routes.ts): the student on success,
HTTP 400 on a college-id validation failure. -/
inductive AuthResult where
  | okStudent (student : Student)
  | badFormat
deriving DecidableEq

/-- routes.ts POST /api/student/auth: validate the college id, return the
existing student when one matches, otherwise create one. -/
def postStudentAuth (st : MemStorage) (collegeId : String) : AuthResult × MemStorage :=
  if collegeIdValid collegeId then
    match st.getStudentByCollegeId collegeId with
    | some student => (AuthResult.okStudent student, st)
    | none =>
      let p := st.createStudent { collegeId := collegeId }
      (AuthResult.okStudent p.1, p.2)
  else (AuthResult.badFormat, st)

/-- Outcome of GET /api/student/:collegeId/bookings (routes.ts): the enriched
history on success, HTTP 400 on a college-id validation failure. -/
inductive HistoryResult where
  | okHistory (bookings : List BookingWithRoute)
  | badFormat
deriving DecidableEq

/-- routes.ts GET /api/student/:collegeId/bookings: validate the college id
then return the booking history (the handler mutates nothing). -/
def getStudentBookings (st : MemStorage) (collegeId : String) : HistoryResult :=
  if collegeIdValid collegeId then
    HistoryResult.okHistory (st.getStudentBookingHistory collegeId)
  else HistoryResult.badFormat

/-- Outcome of POST /api/admin/bus-routes (routes.ts). -/
inductive CreateRouteResult where
  | okRoute (route : BusRoute)
  | duplicateBusNumber
deriving DecidableEq

/-- routes.ts POST /api/admin/bus-routes: reject a duplicate bus number with
HTTP 409, otherwise create the route. -/
def postAdminBusRoutes (st : MemStorage) (ins : InsertBusRoute) :
    CreateRouteResult × MemStorage :=
  match st.getBusRouteByNumber ins.busNumber with
  | some _ => (CreateRouteResult.duplicateBusNumber, st)
  | none =>
    let p := st.createBusRoute ins
    (CreateRouteResult.okRoute p.1, p.2)

/-- Outcome of PUT /api/admin/bus-routes/:id (routes.ts). -/
inductive UpdateRouteResult where
  | okRoute (route : BusRoute)
  | notFound
deriving DecidableEq

/-- routes.ts PUT /api/admin/bus-routes/:id: merge the request body into the
route, HTTP 404 when the id is unknown. -/
def putAdminBusRoute (st : MemStorage) (id : Nat) (patch : BusRoute → BusRoute) :
    UpdateRouteResult × MemStorage :=
  let p := st.updateBusRoute id patch
  match p.1 with
  | some route => (UpdateRouteResult.okRoute route, p.2)
  | none => (UpdateRouteResult.notFound, p.2)

/-- Outcome of DELETE /api/admin/bus-routes/:id (routes.ts). -/
inductive DeleteRouteResult where
  | okDeleted
  | notFound
deriving DecidableEq

/-- routes.ts DELETE /api/admin/bus-routes/:id: HTTP 404 when no route had
that id, success otherwise. -/
def deleteAdminBusRoute (st : MemStorage) (id : Nat) : DeleteRouteResult × MemStorage :=
  let p := st.deleteBusRoute id
  if p.1 then (DeleteRouteResult.okDeleted, p.2) else (DeleteRouteResult.notFound, p.2)

/-- Outcome of POST /api/bookings (routes.ts), one constructor per response. -/
inductive BookingResult where
  | created (booking : Booking)
  | offline
  | studentNotFound
  | routeNotFound
  | noSeats
  | duplicate
deriving DecidableEq

/-- HTTP status code of each POST /api/bookings response (routes.ts). -/
def BookingResult.statusCode : BookingResult → Nat
  | .created _ => 200
  | .offline => 503
  | .studentNotFound => 404
  | .routeNotFound => 404
  | .noSeats => 409
  | .duplicate => 409

/-- routes.ts POST /api/bookings: the gate `systemStatus?.value === "offline"`. -/
def systemOffline (st : MemStorage) : Bool :=
  match st.getSystemSetting "system_status" with
  | some s => s.value == "offline"
  | none => false

/-- The duplicate-booking predicate of routes.ts POST /api/bookings: same
route, same travel date, status not "cancelled". -/
def isDuplicateOf (ins : InsertBooking) (b : Booking) : Bool :=
  b.busRouteId == ins.busRouteId && b.travelDate == ins.travelDate && b.status != "cancelled"

/-- routes.ts POST /api/bookings: offline gate, then student lookup, then
route lookup, then the seats check, then the duplicate check, and finally
`storage.createBooking`. -/
def postBookings (st : MemStorage) (ins : InsertBooking) : BookingResult × MemStorage :=
  if systemOffline st then (BookingResult.offline, st)
  else
    match st.getStudent ins.studentId with
    | none => (BookingResult.studentNotFound, st)
    | some student =>
      match st.getBusRoute ins.busRouteId with
      | none => (BookingResult.routeNotFound, st)
      | some busRoute =>
        if busRoute.availableSeats ≤ 0 then (BookingResult.noSeats, st)
        else
          match (st.getBookingsByStudentId student.id).find? (isDuplicateOf ins) with
          | some _ => (BookingResult.duplicate, st)
          | none =>
            let p := st.createBooking ins
            (BookingResult.created p.1, p.2)

/-- Outcome of POST /api/admin/system/status (routes.ts). -/
inductive StatusResult where
  | okStatus (status : String)
  | invalidValue
deriving DecidableEq

/-- routes.ts POST /api/admin/system/status: the body is checked against the
enum {online, offline}, then the single setting is overwritten. -/
def postSystemStatus (st : MemStorage) (status : String) : StatusResult × MemStorage :=
  if status == "online" || status == "offline" then
    let p := st.setSystemSetting "system_status" status
    (StatusResult.okStatus status, p.2)
  else (StatusResult.invalidValue, st)

/-- One state-mutating API request; the pure GET endpoints and the admin
login do not touch the store and are omitted from the step relation. -/
inductive ApiRequest where
  | studentAuth (collegeId : String)
  | createRoute (ins : InsertBusRoute)
  | updateRoute (id : Nat) (patch : BusRoute → BusRoute)
  | deleteRoute (id : Nat)
  | makeBooking (ins : InsertBooking)
  | setStatus (status : String)

/-- The store reached after serving one request. -/
def step (st : MemStorage) : ApiRequest → MemStorage
  | .studentAuth collegeId => (postStudentAuth st collegeId).2
  | .createRoute ins => (postAdminBusRoutes st ins).2
  | .updateRoute id patch => (putAdminBusRoute st id patch).2
  | .deleteRoute id => (deleteAdminBusRoute st id).2
  | .makeBooking ins => (postBookings st ins).2
  | .setStatus status => (postSystemStatus st status).2

/-- The store reached after serving a sequence of requests. -/
def runRequests (st : MemStorage) (reqs : List ApiRequest) : MemStorage :=
  reqs.foldl step st

/-- The empty store before `initializeDefaults` (storage.ts constructor). -/
def emptyStorage : MemStorage :=
  { students := [], busRoutes := [], bookings := [], systemSettings := [], nextId := 0, now := 0 }

/-- storage.ts initializeDefaults: system online plus the three sample routes;
the concrete date list depends on the wall clock and is a parameter. -/
def initState (dates : List String) : MemStorage :=
  let st1 := (emptyStorage.setSystemSetting "system_status" "online").2
  let st2 := (st1.createBusRoute
    { busNumber := "BUS-001", origin := "Tambaram", destination := "SJCET Campus"
      totalSeats := 40, availableSeats := 23, departureTime := "07:30", returnTime := "17:00"
      availableDates := some dates, isActive := some true }).2
  let st3 := (st2.createBusRoute
    { busNumber := "BUS-002", origin := "Chrompet", destination := "SJCET Campus"
      totalSeats := 35, availableSeats := 8, departureTime := "08:00", returnTime := "17:30"
      availableDates := some (dates.take 20), isActive := some true }).2
  (st3.createBusRoute
    { busNumber := "BUS-003", origin := "Velachery", destination := "SJCET Campus"
      totalSeats := 40, availableSeats := 0, departureTime := "07:45", returnTime := "17:15"
      availableDates := some (dates.take 15), isActive := some true }).2

/-- A concrete student used in witness instantiations. -/
def stuA : Student :=
  { id := 0, collegeId := "SJCET2024001", name := none, email := none, phone := none }

/-- A concrete route with one free seat used in witness instantiations. -/
def routeOne : BusRoute :=
  { id := 1, busNumber := "BUS-001", origin := "Tambaram", destination := "SJCET Campus"
    totalSeats := 40, availableSeats := 1, departureTime := "07:30", returnTime := "17:00"
    isActive := true, availableDates := [] }

/-- A concrete route with no free seat used in witness instantiations. -/
def routeFull : BusRoute :=
  { id := 2, busNumber := "BUS-003", origin := "Velachery", destination := "SJCET Campus"
    totalSeats := 40, availableSeats := 0, departureTime := "07:45", returnTime := "17:15"
    isActive := true, availableDates := [] }

/-- A concrete online store holding `stuA`, `routeOne` and `routeFull`. -/
def baseState : MemStorage :=
  { students := [stuA], busRoutes := [routeOne, routeFull]
    bookings := [], systemSettings := [{ id := 3, key := "system_status", value := "online" }]
    nextId := 4, now := 100 }

/-- The same store with the system switched offline. -/
def offState : MemStorage :=
  { baseState with systemSettings := [{ id := 3, key := "system_status", value := "offline" }] }

/-- A plain booking request from `stuA` for `routeOne`. -/
def insA : InsertBooking :=
  { studentId := 0, busRouteId := 1, travelDate := "2025-01-10" }

example : collegeIdValid "SJCET2024001" = true := by decide
example : collegeIdValid "SJCET202400" = false := by decide
example : collegeIdValid "sjcet2024001" = false := by decide
example : (postBookings baseState insA).1 =
    BookingResult.created
      { id := 4, studentId := 0, busRouteId := 1, travelDate := "2025-01-10"
        bookingTime := 100, status := "confirmed" } := by decide
example : ((postBookings baseState insA).2.getBusRoute 1).map BusRoute.availableSeats =
    some 0 := by decide
example : (postBookings offState insA) = (BookingResult.offline, offState) := by decide
example : (postBookings baseState { insA with busRouteId := 2 }).1 =
    BookingResult.noSeats := by decide
example : (postBookings baseState { insA with status := some "pending" }).1 =
    BookingResult.created
      { id := 4, studentId := 0, busRouteId := 1, travelDate := "2025-01-10"
        bookingTime := 100, status := "pending" } := by decide
example :
    (postStudentAuth (postStudentAuth emptyStorage "SJCET2024001").2 "SJCET2024001").1 =
      AuthResult.okStudent
        { id := 0, collegeId := "SJCET2024001", name := none, email := none, phone := none } := by
  decide

theorem MemStorage.updateBusRoute_bookings (st : MemStorage) (id : Nat)
    (patch : BusRoute → BusRoute) :
    ((st.updateBusRoute id patch).2).bookings = st.bookings := by
  unfold MemStorage.updateBusRoute; split <;> rfl

theorem MemStorage.updateBusRoute_students (st : MemStorage) (id : Nat)
    (patch : BusRoute → BusRoute) :
    ((st.updateBusRoute id patch).2).students = st.students := by
  unfold MemStorage.updateBusRoute; split <;> rfl

theorem MemStorage.updateBusRoute_settings (st : MemStorage) (id : Nat)
    (patch : BusRoute → BusRoute) :
    ((st.updateBusRoute id patch).2).systemSettings = st.systemSettings := by
  unfold MemStorage.updateBusRoute; split <;> rfl

theorem MemStorage.createBooking_fst (st : MemStorage) (ins : InsertBooking) :
    (st.createBooking ins).1 =
      { id := st.nextId, studentId := ins.studentId, busRouteId := ins.busRouteId
        travelDate := ins.travelDate, bookingTime := st.now
        status := statusOrConfirmed ins.status } := by
  unfold MemStorage.createBooking
  dsimp only
  split
  · split <;> rfl
  · rfl

theorem MemStorage.createBooking_bookings (st : MemStorage) (ins : InsertBooking) :
    ((st.createBooking ins).2).bookings = st.bookings ++ [(st.createBooking ins).1] := by
  rw [MemStorage.createBooking_fst]
  unfold MemStorage.createBooking
  dsimp only
  split
  · split
    · rw [MemStorage.updateBusRoute_bookings]
    · rfl
  · rfl

theorem MemStorage.createBooking_students (st : MemStorage) (ins : InsertBooking) :
    ((st.createBooking ins).2).students = st.students := by
  unfold MemStorage.createBooking
  dsimp only
  split
  · split
    · rw [MemStorage.updateBusRoute_students]
    · rfl
  · rfl

theorem MemStorage.createBooking_settings (st : MemStorage) (ins : InsertBooking) :
    ((st.createBooking ins).2).systemSettings = st.systemSettings := by
  unfold MemStorage.createBooking
  dsimp only
  split
  · split
    · rw [MemStorage.updateBusRoute_settings]
    · rfl
  · rfl

theorem MemStorage.setSystemSetting_students (st : MemStorage) (k v : String) :
    ((st.setSystemSetting k v).2).students = st.students := rfl

theorem MemStorage.setSystemSetting_busRoutes (st : MemStorage) (k v : String) :
    ((st.setSystemSetting k v).2).busRoutes = st.busRoutes := rfl

theorem MemStorage.setSystemSetting_bookings (st : MemStorage) (k v : String) :
    ((st.setSystemSetting k v).2).bookings = st.bookings := rfl

/-- Replacing every element matching `p` by a fixed `new` that itself matches
`p` makes `find? p` return `new`, provided some element matched. -/
theorem find?_map_replace {α : Type} (p : α → Bool) (new : α) (hp : p new = true) :
    ∀ l : List α, l.any p = true →
      (l.map fun x => if p x then new else x).find? p = some new := by
  intro l
  induction l with
  | nil => intro h; simp at h
  | cons a l ih =>
    intro h
    by_cases hpa : p a = true
    · simp [List.find?, hpa, hp]
    · have hpa' : p a = false := by revert hpa; cases p a <;> simp
      have htail : l.any p = true := by
        rcases List.any_eq_true.1 h with ⟨x, hx, hpx⟩
        rcases List.mem_cons.1 hx with h1 | h2
        · subst h1; rw [hpa'] at hpx; cases hpx
        · exact List.any_eq_true.2 ⟨x, h2, hpx⟩
      simpa [List.find?, hpa'] using ih htail

theorem MemStorage.getSystemSetting_set_self (st : MemStorage) (k v : String) :
    ((st.setSystemSetting k v).2).getSystemSetting k =
      some { id := st.nextId, key := k, value := v } := by
  unfold MemStorage.setSystemSetting MemStorage.getSystemSetting
  dsimp only
  by_cases h : st.systemSettings.any (fun s => s.key == k) = true
  · simp only [h, if_true]
    exact find?_map_replace (fun s => s.key == k)
      { id := st.nextId, key := k, value := v } (by simp) st.systemSettings h
  · have h' : st.systemSettings.any (fun s => s.key == k) = false := by
      revert h; cases st.systemSettings.any (fun s => s.key == k) <;> simp
    simp only [h', Bool.false_eq_true, if_false]
    rw [List.find?_append]
    have hnone : st.systemSettings.find? (fun s => s.key == k) = none := by
      rw [List.find?_eq_none]
      intro x hx hpx
      have hany : st.systemSettings.any (fun s => s.key == k) = true := by
        refine List.any_eq_true.2 ⟨x, hx, ?_⟩
        exact hpx
      rw [h'] at hany; cases hany
    simp [hnone, List.find?]

theorem systemOffline_after_online (st : MemStorage) :
    systemOffline (postSystemStatus st "online").2 = false := by
  have hps : (postSystemStatus st "online").2 =
      (st.setSystemSetting "system_status" "online").2 := rfl
  rw [hps]
  unfold systemOffline
  rw [MemStorage.getSystemSetting_set_self]
  rfl

theorem MemStorage.createBooking_busRoutes_none (st : MemStorage) (ins : InsertBooking)
    (h : st.getBusRoute ins.busRouteId = none) :
    ((st.createBooking ins).2).busRoutes = st.busRoutes := by
  unfold MemStorage.getBusRoute at h
  unfold MemStorage.createBooking MemStorage.getBusRoute
  dsimp only
  rw [h]

theorem MemStorage.createBooking_busRoutes_noSeats (st : MemStorage) (ins : InsertBooking)
    (busRoute : BusRoute) (h : st.getBusRoute ins.busRouteId = some busRoute)
    (hs : busRoute.availableSeats ≤ 0) :
    ((st.createBooking ins).2).busRoutes = st.busRoutes := by
  unfold MemStorage.getBusRoute at h
  unfold MemStorage.createBooking MemStorage.getBusRoute
  dsimp only
  rw [h]
  dsimp only
  rw [if_neg (by omega : ¬ busRoute.availableSeats > 0)]

theorem MemStorage.createBooking_busRoutes_dec (st : MemStorage) (ins : InsertBooking)
    (busRoute : BusRoute) (h : st.getBusRoute ins.busRouteId = some busRoute)
    (hs : 0 < busRoute.availableSeats) :
    ((st.createBooking ins).2).busRoutes =
      st.busRoutes.map fun r =>
        if r.id == ins.busRouteId then
          { busRoute with availableSeats := busRoute.availableSeats - 1 }
        else r := by
  have hid : busRoute.id = ins.busRouteId := by
    have := List.find?_some h
    simpa using this
  unfold MemStorage.getBusRoute at h
  unfold MemStorage.createBooking MemStorage.getBusRoute MemStorage.updateBusRoute
  dsimp only
  rw [h]
  dsimp only
  rw [if_pos (by omega : busRoute.availableSeats > 0)]
  dsimp only
  rw [hid, h]
  simp only [hid]

/-- The seat-count invariant of the spec data model: every route has
`0 ≤ availableSeats ≤ totalSeats`. -/
def routesOk (st : MemStorage) : Prop :=
  ∀ r ∈ st.busRoutes, 0 ≤ r.availableSeats ∧ r.availableSeats ≤ r.totalSeats

instance routesOkDecidable (st : MemStorage) : Decidable (routesOk st) := by
  unfold routesOk; infer_instance

theorem MemStorage.createBooking_routesOk (st : MemStorage) (ins : InsertBooking)
    (h : routesOk st) : routesOk (st.createBooking ins).2 := by
  rcases hfind : st.getBusRoute ins.busRouteId with _ | busRoute
  · intro r hr
    rw [MemStorage.createBooking_busRoutes_none st ins hfind] at hr
    exact h r hr
  · by_cases hs : busRoute.availableSeats ≤ 0
    · intro r hr
      rw [MemStorage.createBooking_busRoutes_noSeats st ins busRoute hfind hs] at hr
      exact h r hr
    · have hs' : 0 < busRoute.availableSeats := by omega
      intro r hr
      rw [MemStorage.createBooking_busRoutes_dec st ins busRoute hfind hs'] at hr
      rcases List.mem_map.1 hr with ⟨a, ha, rfl⟩
      have hb := h busRoute (List.mem_of_find?_eq_some hfind)
      by_cases hid : (a.id == ins.busRouteId) = true
      · simp only [hid, if_true]
        omega
      · have hid' : (a.id == ins.busRouteId) = false := by
          revert hid; cases (a.id == ins.busRouteId) <;> simp
        simp only [hid', Bool.false_eq_true, if_false]
        exact h a ha

theorem postBookings_routesOk (st : MemStorage) (ins : InsertBooking)
    (h : routesOk st) : routesOk (postBookings st ins).2 := by
  unfold postBookings
  split
  · exact h
  · split
    · exact h
    · split
      · exact h
      · split
        · exact h
        · split
          · exact h
          · exact MemStorage.createBooking_routesOk st ins h

/-- C1: for every route whose state initially satisfies
`0 ≤ availableSeats ≤ totalSeats`, after any sequence of booking-creation
requests (POST /bookings) the route's `availableSeats` never exceeds its
`totalSeats` and never goes below zero. -/
theorem seatBounds_preserved_by_bookings (st : MemStorage) (reqs : List InsertBooking)
    (h : routesOk st) :
    routesOk (reqs.foldl (fun s i => (postBookings s i).2) st) := by
  induction reqs generalizing st with
  | nil => exact h
  | cons i reqs ih => exact ih ((postBookings st i).2) (postBookings_routesOk st i h)

/-- C1 witness: the invariant holds concretely after two booking requests
against `baseState` (the second exhausts the single free seat). -/
theorem seatBounds_preserved_by_bookings_witness :
    routesOk (([insA, insA, { insA with busRouteId := 2 }]).foldl
      (fun s i => (postBookings s i).2) baseState) :=
  seatBounds_preserved_by_bookings baseState [insA, insA, { insA with busRouteId := 2 }]
    (by decide)

/-- C2: a booking-creation request that reaches the seat check (system not
offline, student and route resolve) against a route with zero available seats
fails with the no-seats conflict (HTTP 409) and leaves the store unchanged. -/
theorem zeroSeats_booking_rejected (st : MemStorage) (ins : InsertBooking)
    (student : Student) (route : BusRoute)
    (hon : systemOffline st = false)
    (hs : st.getStudent ins.studentId = some student)
    (hr : st.getBusRoute ins.busRouteId = some route)
    (h0 : route.availableSeats = 0) :
    postBookings st ins = (BookingResult.noSeats, st) ∧
    BookingResult.noSeats.statusCode = 409 := by
  refine ⟨?_, rfl⟩
  unfold postBookings
  simp [hon, hs, hr, h0]

/-- C2 witness: booking the fully-booked `routeFull` from `baseState`
is rejected with the no-seats conflict and the store is untouched. -/
theorem zeroSeats_booking_rejected_witness :
    postBookings baseState { insA with busRouteId := 2 } = (BookingResult.noSeats, baseState) ∧
    BookingResult.noSeats.statusCode = 409 :=
  zeroSeats_booking_rejected baseState { insA with busRouteId := 2 } stuA routeFull
    (by decide) (by decide) (by decide) (by decide)

/-- C6: with the system online, the booking checks fire in source order —
an unresolved student wins over everything (regardless of route, seats or
duplicates), an unresolved route wins over the seat and duplicate checks,
and the no-seats check wins over the duplicate check. -/
theorem booking_check_order (st : MemStorage) (ins : InsertBooking)
    (hon : systemOffline st = false) :
    (st.getStudent ins.studentId = none →
      postBookings st ins = (BookingResult.studentNotFound, st)) ∧
    (∀ student, st.getStudent ins.studentId = some student →
      st.getBusRoute ins.busRouteId = none →
      postBookings st ins = (BookingResult.routeNotFound, st)) ∧
    (∀ student route, st.getStudent ins.studentId = some student →
      st.getBusRoute ins.busRouteId = some route → route.availableSeats ≤ 0 →
      postBookings st ins = (BookingResult.noSeats, st)) := by
  refine ⟨?_, ?_, ?_⟩
  · intro hnone
    unfold postBookings
    simp [hon, hnone]
  · intro student hsome hnone
    unfold postBookings
    simp [hon, hsome, hnone]
  · intro student route hsome hroute hseats
    unfold postBookings
    simp [hon, hsome, hroute, hseats]

/-- A confirmed booking by `stuA` on `routeFull` for the date of `insA`. -/
def bDupFull : Booking :=
  { id := 7, studentId := 0, busRouteId := 2, travelDate := "2025-01-10"
    bookingTime := 10, status := "confirmed" }

/-- A store where the seat check and the duplicate check are both violated. -/
def seatsVsDupState : MemStorage :=
  { baseState with bookings := [bDupFull] }

/-- C6 witness: the student check wins when the student is missing, the route
check wins when the route is missing, and the no-seats conflict wins even when
a duplicate booking also exists. -/
theorem booking_check_order_witness :
    postBookings { baseState with students := [] } insA =
      (BookingResult.studentNotFound, { baseState with students := [] }) ∧
    postBookings baseState { insA with busRouteId := 99 } =
      (BookingResult.routeNotFound, baseState) ∧
    postBookings seatsVsDupState { insA with busRouteId := 2 } =
      (BookingResult.noSeats, seatsVsDupState) :=
  ⟨(booking_check_order { baseState with students := [] } insA (by decide)).1 (by decide),
   (booking_check_order baseState { insA with busRouteId := 99 } (by decide)).2.1 stuA
     (by decide) (by decide),
   (booking_check_order seatsVsDupState { insA with busRouteId := 2 } (by decide)).2.2 stuA
     routeFull (by decide) (by decide) (by decide)⟩

/-- C3: while the "system_status" setting is "offline" every booking-creation
request fails with the service-unavailable response (HTTP 503) and mutates
nothing; after the admin sets the status back to "online", an otherwise-valid
booking request succeeds again. -/
theorem offline_blocks_booking_online_restores (st : MemStorage) (ins : InsertBooking) :
    (systemOffline st = true →
      postBookings st ins = (BookingResult.offline, st) ∧
      BookingResult.offline.statusCode = 503) ∧
    (∀ student route,
      st.getStudent ins.studentId = some student →
      st.getBusRoute ins.busRouteId = some route →
      0 < route.availableSeats →
      (st.getBookingsByStudentId student.id).find? (isDuplicateOf ins) = none →
      ∃ booking st2,
        postBookings (postSystemStatus st "online").2 ins =
          (BookingResult.created booking, st2)) := by
  constructor
  · intro hoff
    refine ⟨?_, rfl⟩
    unfold postBookings
    simp [hoff]
  · intro student route hs hr hseat hdup
    unfold postBookings
    rw [systemOffline_after_online]
    simp only [Bool.false_eq_true, if_false]
    rw [show (postSystemStatus st "online").2.getStudent ins.studentId = some student from hs]
    rw [show (postSystemStatus st "online").2.getBusRoute ins.busRouteId = some route from hr]
    dsimp only
    rw [if_neg (by omega : ¬ route.availableSeats ≤ 0)]
    rw [show ((postSystemStatus st "online").2.getBookingsByStudentId student.id).find?
          (isDuplicateOf ins) = none from hdup]
    exact ⟨_, _, rfl⟩

/-- C3 witness: from the concrete offline store the booking request returns
the 503 response and the untouched store, and after switching back online the
same request succeeds. -/
theorem offline_blocks_booking_online_restores_witness :
    (postBookings offState insA = (BookingResult.offline, offState) ∧
      BookingResult.offline.statusCode = 503) ∧
    (∃ booking st2,
      postBookings (postSystemStatus offState "online").2 insA =
        (BookingResult.created booking, st2)) :=
  ⟨(offline_blocks_booking_online_restores offState insA).1 (by decide),
   (offline_blocks_booking_online_restores offState insA).2 stuA routeOne
     (by decide) (by decide) (by decide) (by decide)⟩

theorem MemStorage.createBooking_getBusRoute_dec (st : MemStorage) (ins : InsertBooking)
    (busRoute : BusRoute) (h : st.getBusRoute ins.busRouteId = some busRoute)
    (hs : 0 < busRoute.availableSeats) :
    ((st.createBooking ins).2).getBusRoute ins.busRouteId =
      some { busRoute with availableSeats := busRoute.availableSeats - 1 } := by
  have h' : List.find? (fun r => r.id == ins.busRouteId) st.busRoutes = some busRoute := h
  have hid : (busRoute.id == ins.busRouteId) = true := by
    simpa using List.find?_some h'
  unfold MemStorage.getBusRoute
  rw [MemStorage.createBooking_busRoutes_dec st ins busRoute h hs]
  apply find?_map_replace
  · simpa using hid
  · exact List.any_eq_true.2 ⟨busRoute, List.mem_of_find?_eq_some h', hid⟩

/-- C4 counterexample: a successful POST /bookings request that carries
`status := "pending"` in its (schema-valid) body creates and returns a
booking whose status is "pending", not "confirmed" — refuting the claim
that every successful booking creation yields status "confirmed". -/
theorem booking_status_not_always_confirmed :
    (postBookings baseState { insA with status := some "pending" }).1 =
      BookingResult.created
        { id := 4, studentId := 0, busRouteId := 1, travelDate := "2025-01-10"
          bookingTime := 100, status := "pending" } ∧
    "pending" ≠ "confirmed" := by decide

/-- C4 (amended): on a successful booking-creation request, a Booking record
is created and returned whose status is the request's status field when that
field is present and non-empty and "confirmed" otherwise, and the referenced
route's available-seat count — necessarily positive at check time, so the
result is never negative — is decremented by exactly one. -/
theorem booking_success_decrements_and_status (st : MemStorage) (ins : InsertBooking)
    (booking : Booking) (st2 : MemStorage)
    (h : postBookings st ins = (BookingResult.created booking, st2)) :
    booking.status = statusOrConfirmed ins.status ∧
    booking ∈ st2.bookings ∧
    ∃ route, st.getBusRoute ins.busRouteId = some route ∧
      0 < route.availableSeats ∧
      st2.getBusRoute ins.busRouteId =
        some { route with availableSeats := route.availableSeats - 1 } := by
  unfold postBookings at h
  by_cases hoff : systemOffline st = true
  · rw [if_pos hoff] at h; simp at h
  · rw [if_neg hoff] at h
    rcases hstu : st.getStudent ins.studentId with _ | student
    · rw [hstu] at h; simp at h
    · rcases hroute : st.getBusRoute ins.busRouteId with _ | busRoute
      · rw [hstu, hroute] at h; dsimp only at h; simp at h
      · rw [hstu, hroute] at h
        dsimp only at h
        by_cases hseats : busRoute.availableSeats ≤ 0
        · rw [if_pos hseats] at h; simp at h
        · rw [if_neg hseats] at h
          rcases hdup : (st.getBookingsByStudentId student.id).find? (isDuplicateOf ins) with
            _ | dupb
          · rw [hdup] at h
            dsimp only at h
            simp only [Prod.mk.injEq, BookingResult.created.injEq] at h
            obtain ⟨hb, hst⟩ := h
            subst hb
            subst hst
            refine ⟨?_, ?_, busRoute, rfl, by omega, ?_⟩
            · rw [MemStorage.createBooking_fst]
            · rw [MemStorage.createBooking_bookings]
              exact List.mem_append_right _ (List.mem_singleton.2 rfl)
            · exact MemStorage.createBooking_getBusRoute_dec st ins busRoute hroute (by omega)
          · rw [hdup] at h; simp at h

/-- The booking record produced by the successful `insA` request on `baseState`. -/
def bookedOne : Booking :=
  { id := 4, studentId := 0, busRouteId := 1, travelDate := "2025-01-10"
    bookingTime := 100, status := "confirmed" }

/-- C4 witness: the amended claim instantiated on the concrete successful
request `insA` against `baseState`. -/
theorem booking_success_decrements_and_status_witness :
    bookedOne.status = statusOrConfirmed insA.status ∧
    bookedOne ∈ (postBookings baseState insA).2.bookings ∧
    ∃ route, baseState.getBusRoute insA.busRouteId = some route ∧
      0 < route.availableSeats ∧
      (postBookings baseState insA).2.getBusRoute insA.busRouteId =
        some { route with availableSeats := route.availableSeats - 1 } :=
  booking_success_decrements_and_status baseState insA bookedOne
    (postBookings baseState insA).2 (by decide)

theorem MemStorage.createStudent_find_self (st : MemStorage) (cid : String)
    (hnone : st.getStudentByCollegeId cid = none) :
    ((st.createStudent { collegeId := cid }).2).getStudentByCollegeId cid =
      some (st.createStudent { collegeId := cid }).1 := by
  have h' : List.find? (fun s => s.collegeId == cid) st.students = none := hnone
  unfold MemStorage.createStudent MemStorage.getStudentByCollegeId
  dsimp only
  rw [List.find?_append, h']
  simp [List.find?]

/-- C7: student authentication is idempotent — when a first POST /student/auth
returns a student, running the same request again returns the very same
student record (in particular the same identifier) and leaves the store of
the first response untouched instead of creating a second record. -/
theorem student_auth_idempotent (st : MemStorage) (collegeId : String) (s1 : Student)
    (h : (postStudentAuth st collegeId).1 = AuthResult.okStudent s1) :
    (postStudentAuth (postStudentAuth st collegeId).2 collegeId).1 =
      AuthResult.okStudent s1 ∧
    (postStudentAuth (postStudentAuth st collegeId).2 collegeId).2 =
      (postStudentAuth st collegeId).2 := by
  by_cases hv : collegeIdValid collegeId = true
  · rcases hfind : st.getStudentByCollegeId collegeId with _ | s0
    · have h1 : postStudentAuth st collegeId =
          (AuthResult.okStudent (st.createStudent { collegeId := collegeId }).1,
           (st.createStudent { collegeId := collegeId }).2) := by
        unfold postStudentAuth
        rw [if_pos hv, hfind]
      rw [h1] at h ⊢
      dsimp only at h ⊢
      have hs1 : (st.createStudent { collegeId := collegeId }).1 = s1 := by
        simpa using h
      unfold postStudentAuth
      rw [if_pos hv, MemStorage.createStudent_find_self st collegeId hfind, hs1]
      exact ⟨rfl, rfl⟩
    · have h1 : postStudentAuth st collegeId = (AuthResult.okStudent s0, st) := by
        unfold postStudentAuth
        rw [if_pos hv, hfind]
      rw [h1] at h ⊢
      dsimp only at h ⊢
      unfold postStudentAuth
      rw [if_pos hv, hfind]
      exact ⟨h, rfl⟩
  · have h1 : postStudentAuth st collegeId = (AuthResult.badFormat, st) := by
      unfold postStudentAuth
      rw [if_neg hv]
    rw [h1] at h
    simp at h

/-- C7 witness: authenticating a fresh college id twice on the empty store
returns the identical student record both times. -/
theorem student_auth_idempotent_witness :
    (postStudentAuth (postStudentAuth emptyStorage "SJCET2024001").2 "SJCET2024001").1 =
      AuthResult.okStudent
        { id := 0, collegeId := "SJCET2024001", name := none, email := none, phone := none } ∧
    (postStudentAuth (postStudentAuth emptyStorage "SJCET2024001").2 "SJCET2024001").2 =
      (postStudentAuth emptyStorage "SJCET2024001").2 :=
  student_auth_idempotent emptyStorage "SJCET2024001"
    { id := 0, collegeId := "SJCET2024001", name := none, email := none, phone := none }
    (by decide)

/-- The college-id format stated by the spec: the fixed letter prefix SJCET
followed by exactly seven digit characters. -/
def sjcetPattern (s : String) : Prop :=
  ∃ ds : List Char, s.data = "SJCET".data ++ ds ∧ ds.length = 7 ∧ ∀ c ∈ ds, c.isDigit = true

theorem collegeIdValid_iff (s : String) : collegeIdValid s = true ↔ sjcetPattern s := by
  unfold collegeIdValid sjcetPattern
  constructor
  · intro h
    unfold collegeIdValidChars at h
    split at h
    · rename_i rest heq
      rw [Bool.and_eq_true, beq_iff_eq, List.all_eq_true] at h
      exact ⟨rest, by rw [heq]; rfl, h.1, fun c hc => h.2 c hc⟩
    · simp at h
  · rintro ⟨ds, hd, hlen, hdig⟩
    have hcons : s.data = 'S' :: 'J' :: 'C' :: 'E' :: 'T' :: ds := hd
    rw [hcons]
    show (ds.length == 7 && ds.all Char.isDigit) = true
    rw [Bool.and_eq_true, beq_iff_eq, List.all_eq_true]
    exact ⟨hlen, fun c hc => hdig c hc⟩

/-- C8: registration (POST /student/auth) and lookup
(GET /student/:collegeId/bookings) apply the same college-id rule — each
accepts an input exactly when it is the prefix SJCET followed by exactly
seven digits, and otherwise answers the 400 bad-format response. -/
theorem collegeId_rule_consistent (st : MemStorage) (s : String) :
    ((∃ stu, (postStudentAuth st s).1 = AuthResult.okStudent stu) ↔ sjcetPattern s) ∧
    ((postStudentAuth st s).1 = AuthResult.badFormat ↔ ¬ sjcetPattern s) ∧
    ((∃ bs, getStudentBookings st s = HistoryResult.okHistory bs) ↔ sjcetPattern s) ∧
    (getStudentBookings st s = HistoryResult.badFormat ↔ ¬ sjcetPattern s) := by
  have hiff := collegeIdValid_iff s
  by_cases hv : collegeIdValid s = true
  · have hp : sjcetPattern s := hiff.1 hv
    unfold postStudentAuth getStudentBookings
    rw [if_pos hv, if_pos hv]
    rcases hfind : st.getStudentByCollegeId s with _ | s0 <;>
      simp [hp]
  · have hp : ¬ sjcetPattern s := fun hps => hv (hiff.2 hps)
    unfold postStudentAuth getStudentBookings
    rw [if_neg hv, if_neg hv]
    simp [hp]

/-- C9: the storage-layer createBooking enforces nothing itself — it always
appends exactly the returned booking record to the bookings collection (even
when the referenced route is missing or has no seats, in which case every
route is left untouched), and it never alters students or settings; the
seat/duplicate/existence checks exist only in the postBookings handler. -/
theorem createBooking_unconditional_insert (st : MemStorage) (ins : InsertBooking) :
    ((st.createBooking ins).2).bookings = st.bookings ++ [(st.createBooking ins).1] ∧
    ((st.createBooking ins).2).students = st.students ∧
    ((st.createBooking ins).2).systemSettings = st.systemSettings ∧
    (st.getBusRoute ins.busRouteId = none →
      ((st.createBooking ins).2).busRoutes = st.busRoutes) ∧
    (∀ route, st.getBusRoute ins.busRouteId = some route → route.availableSeats ≤ 0 →
      ((st.createBooking ins).2).busRoutes = st.busRoutes) :=
  ⟨MemStorage.createBooking_bookings st ins, MemStorage.createBooking_students st ins,
   MemStorage.createBooking_settings st ins,
   fun h => MemStorage.createBooking_busRoutes_none st ins h,
   fun route h hs => MemStorage.createBooking_busRoutes_noSeats st ins route h hs⟩

/-- C9 witness: calling the storage layer directly with a dangling route
reference still inserts the booking and touches no route, and likewise for a
route with zero seats. -/
theorem createBooking_unconditional_insert_witness :
    ((emptyStorage.createBooking insA).2).bookings =
      emptyStorage.bookings ++ [(emptyStorage.createBooking insA).1] ∧
    ((emptyStorage.createBooking insA).2).busRoutes = emptyStorage.busRoutes ∧
    ((baseState.createBooking { insA with busRouteId := 2 }).2).busRoutes =
      baseState.busRoutes :=
  ⟨(createBooking_unconditional_insert emptyStorage insA).1,
   (createBooking_unconditional_insert emptyStorage insA).2.2.2.1 (by decide),
   (createBooking_unconditional_insert baseState { insA with busRouteId := 2 }).2.2.2.2
     routeFull (by decide) (by decide)⟩

/-- C10: DELETE /admin/bus-routes/:id removes exactly the routes with that
identifier — bookings, students and settings are untouched, every other
route survives unchanged, and the enriched booking view afterwards resolves
a booking that referenced the deleted route with an absent route value
rather than failing. -/
theorem deleteRoute_leaves_bookings_intact (st : MemStorage) (id : Nat) :
    (deleteAdminBusRoute st id).2 = (st.deleteBusRoute id).2 ∧
    ((st.deleteBusRoute id).2).bookings = st.bookings ∧
    ((st.deleteBusRoute id).2).students = st.students ∧
    ((st.deleteBusRoute id).2).systemSettings = st.systemSettings ∧
    (∀ r ∈ st.busRoutes, r.id ≠ id → r ∈ ((st.deleteBusRoute id).2).busRoutes) ∧
    (∀ r ∈ ((st.deleteBusRoute id).2).busRoutes, r ∈ st.busRoutes ∧ r.id ≠ id) ∧
    (∀ bid b,
      ((st.deleteBusRoute id).2).bookings.find? (fun x => x.id == bid) = some b →
      b.busRouteId = id →
      ((st.deleteBusRoute id).2).getBookingWithDetails bid =
        some { booking := b
               student := ((st.deleteBusRoute id).2).getStudent b.studentId
               busRoute := none }) := by
  have hnone : ((st.deleteBusRoute id).2).getBusRoute id = none := by
    unfold MemStorage.getBusRoute MemStorage.deleteBusRoute
    dsimp only
    rw [List.find?_eq_none]
    intro x hx
    have hne := (List.mem_filter.1 hx).2
    simp only [bne_iff_ne, ne_eq] at hne
    simp [hne]
  refine ⟨?_, rfl, rfl, rfl, ?_, ?_, ?_⟩
  · unfold deleteAdminBusRoute
    dsimp only
    split <;> rfl
  · intro r hr hne
    unfold MemStorage.deleteBusRoute
    dsimp only
    exact List.mem_filter.2 ⟨hr, by simpa using hne⟩
  · intro r hr
    have := List.mem_filter.1 hr
    exact ⟨this.1, by simpa using this.2⟩
  · intro bid b hfind hbr
    unfold MemStorage.getBookingWithDetails
    rw [hfind]
    dsimp only
    rw [show ((st.deleteBusRoute id).2).getBusRoute b.busRouteId = none from hbr ▸ hnone]

/-- A booking by `stuA` on `routeOne` used for the route-deletion witness. -/
def bOnRouteOne : Booking :=
  { id := 8, studentId := 0, busRouteId := 1, travelDate := "2025-01-10"
    bookingTime := 20, status := "confirmed" }

/-- The concrete store holding `bOnRouteOne` before its route is deleted. -/
def delState : MemStorage :=
  { baseState with bookings := [bOnRouteOne] }

/-- C10 witness: deleting `routeOne` from `delState` keeps the booking that
references it, keeps `routeFull`, and the enriched view of that booking now
reports an absent route. -/
theorem deleteRoute_leaves_bookings_intact_witness :
    ((delState.deleteBusRoute 1).2).bookings = delState.bookings ∧
    routeFull ∈ ((delState.deleteBusRoute 1).2).busRoutes ∧
    ((delState.deleteBusRoute 1).2).getBookingWithDetails 8 =
      some { booking := bOnRouteOne
             student := ((delState.deleteBusRoute 1).2).getStudent 0
             busRoute := none } :=
  ⟨(deleteRoute_leaves_bookings_intact delState 1).2.1,
   (deleteRoute_leaves_bookings_intact delState 1).2.2.2.2.1 routeFull (by decide) (by decide),
   (deleteRoute_leaves_bookings_intact delState 1).2.2.2.2.2.2 8 bOnRouteOne
     (by decide) (by decide)⟩

/-- The uniqueness invariant of the spec data model: at most one
non-cancelled booking per (student, route, travel date) triple. -/
def activeUnique (st : MemStorage) : Prop :=
  ∀ b1 ∈ st.bookings, ∀ b2 ∈ st.bookings,
    b1.studentId = b2.studentId → b1.busRouteId = b2.busRouteId →
    b1.travelDate = b2.travelDate →
    b1.status ≠ "cancelled" → b2.status ≠ "cancelled" → b1 = b2

theorem activeUnique_congr {st st' : MemStorage} (hb : st'.bookings = st.bookings)
    (h : activeUnique st) : activeUnique st' := by
  intro b1 hb1 b2 hb2
  rw [hb] at hb1 hb2
  exact h b1 hb1 b2 hb2

theorem postStudentAuth_bookings (st : MemStorage) (c : String) :
    ((postStudentAuth st c).2).bookings = st.bookings := by
  unfold postStudentAuth
  split
  · split <;> rfl
  · rfl

theorem postAdminBusRoutes_bookings (st : MemStorage) (ins : InsertBusRoute) :
    ((postAdminBusRoutes st ins).2).bookings = st.bookings := by
  unfold postAdminBusRoutes
  split <;> rfl

theorem putAdminBusRoute_bookings (st : MemStorage) (id : Nat) (patch : BusRoute → BusRoute) :
    ((putAdminBusRoute st id patch).2).bookings = st.bookings := by
  unfold putAdminBusRoute
  dsimp only
  split <;> exact MemStorage.updateBusRoute_bookings st id patch

theorem deleteAdminBusRoute_bookings (st : MemStorage) (id : Nat) :
    ((deleteAdminBusRoute st id).2).bookings = st.bookings := by
  unfold deleteAdminBusRoute
  dsimp only
  split <;> rfl

theorem postSystemStatus_bookings (st : MemStorage) (status : String) :
    ((postSystemStatus st status).2).bookings = st.bookings := by
  unfold postSystemStatus
  split <;> rfl

theorem postBookings_activeUnique (st : MemStorage) (ins : InsertBooking)
    (h : activeUnique st) : activeUnique (postBookings st ins).2 := by
  unfold postBookings
  by_cases hoff : systemOffline st = true
  · rw [if_pos hoff]; exact h
  · rw [if_neg hoff]
    rcases hstu : st.getStudent ins.studentId with _ | student
    · exact h
    · rcases hroute : st.getBusRoute ins.busRouteId with _ | busRoute
      · exact h
      · dsimp only
        by_cases hseats : busRoute.availableSeats ≤ 0
        · rw [if_pos hseats]; exact h
        · rw [if_neg hseats]
          rcases hdup : (st.getBookingsByStudentId student.id).find? (isDuplicateOf ins) with
            _ | dupb
          · have hsid : student.id = ins.studentId := by
              have h' : List.find? (fun s => s.id == ins.studentId) st.students =
                  some student := hstu
              simpa using List.find?_some h'
            have hnb := MemStorage.createBooking_fst st ins
            intro b1 hb1 b2 hb2 h1 h2 h3 h4 h5
            rw [MemStorage.createBooking_bookings] at hb1 hb2
            rcases List.mem_append.1 hb1 with hb1o | hb1n
            · rcases List.mem_append.1 hb2 with hb2o | hb2n
              · exact h b1 hb1o b2 hb2o h1 h2 h3 h4 h5
              · exfalso
                have hb2e : b2 = (st.createBooking ins).1 := List.mem_singleton.1 hb2n
                have hbs2 : b2.studentId = ins.studentId := by rw [hb2e, hnb]
                have hbr2 : b2.busRouteId = ins.busRouteId := by rw [hb2e, hnb]
                have hbd2 : b2.travelDate = ins.travelDate := by rw [hb2e, hnb]
                have hmem : b1 ∈ st.getBookingsByStudentId student.id :=
                  List.mem_filter.2 ⟨hb1o, beq_iff_eq.2 (h1.trans (hbs2.trans hsid.symm))⟩
                have hpred : isDuplicateOf ins b1 = true := by
                  unfold isDuplicateOf
                  rw [Bool.and_eq_true, Bool.and_eq_true]
                  exact ⟨⟨beq_iff_eq.2 (h2.trans hbr2), beq_iff_eq.2 (h3.trans hbd2)⟩,
                    bne_iff_ne.2 h4⟩
                exact (List.find?_eq_none.1 hdup) b1 hmem hpred
            · rcases List.mem_append.1 hb2 with hb2o | hb2n
              · exfalso
                have hb1e : b1 = (st.createBooking ins).1 := List.mem_singleton.1 hb1n
                have hbs1 : b1.studentId = ins.studentId := by rw [hb1e, hnb]
                have hbr1 : b1.busRouteId = ins.busRouteId := by rw [hb1e, hnb]
                have hbd1 : b1.travelDate = ins.travelDate := by rw [hb1e, hnb]
                have hmem : b2 ∈ st.getBookingsByStudentId student.id :=
                  List.mem_filter.2
                    ⟨hb2o, beq_iff_eq.2 (h1.symm.trans (hbs1.trans hsid.symm))⟩
                have hpred : isDuplicateOf ins b2 = true := by
                  unfold isDuplicateOf
                  rw [Bool.and_eq_true, Bool.and_eq_true]
                  exact ⟨⟨beq_iff_eq.2 (h2.symm.trans hbr1),
                    beq_iff_eq.2 (h3.symm.trans hbd1)⟩, bne_iff_ne.2 h5⟩
                exact (List.find?_eq_none.1 hdup) b2 hmem hpred
              · rw [List.mem_singleton.1 hb1n, List.mem_singleton.1 hb2n]
          · exact h

theorem step_activeUnique (st : MemStorage) (req : ApiRequest)
    (h : activeUnique st) : activeUnique (step st req) := by
  cases req with
  | studentAuth c => exact activeUnique_congr (postStudentAuth_bookings st c) h
  | createRoute ins => exact activeUnique_congr (postAdminBusRoutes_bookings st ins) h
  | updateRoute id patch => exact activeUnique_congr (putAdminBusRoute_bookings st id patch) h
  | deleteRoute id => exact activeUnique_congr (deleteAdminBusRoute_bookings st id) h
  | makeBooking ins => exact postBookings_activeUnique st ins h
  | setStatus status => exact activeUnique_congr (postSystemStatus_bookings st status) h

theorem runRequests_activeUnique (reqs : List ApiRequest) :
    ∀ st : MemStorage, activeUnique st → activeUnique (runRequests st reqs) := by
  induction reqs with
  | nil => exact fun st h => h
  | cons r rs ih => exact fun st h => ih (step st r) (step_activeUnique st r h)

/-- C5: every store reachable from the initialized system carries at most one
non-cancelled booking per (student, route, travel date) triple; a second
booking-creation request for the triple of a non-cancelled booking is
rejected as a duplicate (store unchanged); and when every booking for that
triple is cancelled, an otherwise-valid second request succeeds. -/
theorem active_booking_uniqueness :
    (∀ dates reqs, activeUnique (runRequests (initState dates) reqs)) ∧
    (∀ st ins student route prior,
      systemOffline st = false →
      st.getStudent ins.studentId = some student →
      st.getBusRoute ins.busRouteId = some route →
      0 < route.availableSeats →
      prior ∈ st.getBookingsByStudentId student.id →
      isDuplicateOf ins prior = true →
      postBookings st ins = (BookingResult.duplicate, st)) ∧
    (∀ st ins student route,
      systemOffline st = false →
      st.getStudent ins.studentId = some student →
      st.getBusRoute ins.busRouteId = some route →
      0 < route.availableSeats →
      (∀ b ∈ st.getBookingsByStudentId student.id,
        b.busRouteId = ins.busRouteId → b.travelDate = ins.travelDate →
        b.status = "cancelled") →
      ∃ booking st2, postBookings st ins = (BookingResult.created booking, st2)) := by
  refine ⟨?_, ?_, ?_⟩
  · intro dates reqs
    refine runRequests_activeUnique reqs (initState dates) ?_
    intro b1 hb1
    exact absurd hb1 (List.not_mem_nil b1)
  · intro st ins student route prior hon hs hr hseat hprior hpred
    unfold postBookings
    simp only [hon, Bool.false_eq_true, if_false]
    rw [hs, hr]
    dsimp only
    rw [if_neg (by omega : ¬ route.availableSeats ≤ 0)]
    rcases hfd : (st.getBookingsByStudentId student.id).find? (isDuplicateOf ins) with _ | d
    · exact absurd hpred ((List.find?_eq_none.1 hfd) prior hprior)
    · rfl
  · intro st ins student route hon hs hr hseat hcanc
    have hfd : (st.getBookingsByStudentId student.id).find? (isDuplicateOf ins) = none := by
      rw [List.find?_eq_none]
      intro b hb hpred
      unfold isDuplicateOf at hpred
      rw [Bool.and_eq_true, Bool.and_eq_true, beq_iff_eq, beq_iff_eq, bne_iff_ne] at hpred
      exact hpred.2 (hcanc b hb hpred.1.1 hpred.1.2)
    unfold postBookings
    simp only [hon, Bool.false_eq_true, if_false]
    rw [hs, hr]
    dsimp only
    rw [if_neg (by omega : ¬ route.availableSeats ≤ 0), hfd]
    exact ⟨_, _, rfl⟩

/-- A store whose only booking is the confirmed `bOnRouteOne` for the
triple of `insA`. -/
def confirmedDupState : MemStorage :=
  { baseState with bookings := [bOnRouteOne] }

/-- The same store with that booking cancelled. -/
def cancelledDupState : MemStorage :=
  { baseState with bookings := [{ bOnRouteOne with status := "cancelled" }] }

/-- C5 witness: the second request for the triple of a confirmed booking is
rejected as a duplicate, and succeeds once the prior booking is cancelled. -/
theorem active_booking_uniqueness_witness :
    postBookings confirmedDupState insA = (BookingResult.duplicate, confirmedDupState) ∧
    (∃ booking st2,
      postBookings cancelledDupState insA = (BookingResult.created booking, st2)) :=
  ⟨active_booking_uniqueness.2.1 confirmedDupState insA stuA routeOne bOnRouteOne
     (by decide) (by decide) (by decide) (by decide) (by decide) (by decide),
   active_booking_uniqueness.2.2 cancelledDupState insA stuA routeOne
     (by decide) (by decide) (by decide) (by decide) (by decide)⟩
